/-
Verification of the Hawkins Anomaly Detection System (HADS) core.

Shallow embedding of `src/anomaly_detector.py` and `src/breach_correlator.py`.
Conventions of the embedding:
  * Python floats are modelled as exact rationals (`ℚ`); `math.sqrt` is
    modelled by `Real.sqrt`, so the handful of definitions that touch the
    standard deviation live in `ℝ` and are `noncomputable`.
  * Python dicts are modelled as insertion-ordered association lists with
    the usual lookup / update-or-append / delete operations.
  * Mutation of the detector's per-channel history dict is modelled by
    explicit state passing: the stateful methods return the updated
    detector next to their result.
  * The two dict shapes returned by `check_threshold` / `check_zscore`
    (the `checked=False` shape and the full shape) are modelled as the two
    constructors of an inductive result type.  The `round(x, 3)` applied to
    the reported `zscore` / `mean` / `std_dev` display fields is not
    modelled (no branching and no claim depends on those displayed digits);
    the `is_anomaly` decision uses the unrounded z-score, as in the source.
-/
import Mathlib

namespace HADS

/-! ## Association lists (Python dict model) -/

/-- Lookup in an insertion-ordered association list (`m[k]` / `m.get(k)`). -/
def alistGet {α β : Type} [DecidableEq α] (m : List (α × β)) (k : α) : Option β :=
  match m with
  | [] => none
  | (k₀, v₀) :: rest => if k₀ = k then some v₀ else alistGet rest k

/-- Update-or-append (`m[k] = v` on a Python dict): an existing key keeps its
position, a new key is appended at the end. -/
def alistSet {α β : Type} [DecidableEq α] (m : List (α × β)) (k : α) (v : β) :
    List (α × β) :=
  match m with
  | [] => [(k, v)]
  | (k₀, v₀) :: rest => if k₀ = k then (k₀, v) :: rest else (k₀, v₀) :: alistSet rest k v

/-- Deletion (`del m[k]`); removes the (unique, in a dict) binding of `k`. -/
def alistDel {α β : Type} [DecidableEq α] (m : List (α × β)) (k : α) : List (α × β) :=
  match m with
  | [] => []
  | (k₀, v₀) :: rest => if k₀ = k then rest else (k₀, v₀) :: alistDel rest k

/-! ## Module-level constants of `anomaly_detector.py` -/

/-- One entry of the `THRESHOLDS` table. -/
structure ThresholdConfig where
  min : ℚ
  max : ℚ
  unit : String
deriving DecidableEq

/-- `THRESHOLDS`: threshold configuration for each sensor type. -/
def THRESHOLDS : List (String × ThresholdConfig) :=
  [("temperature", ⟨15, 32, "¬∞C"⟩),
   ("gas", ⟨0, 75, "ppm"⟩),
   ("vibration", ⟨0, 4, "mm/s"⟩),
   ("cpu_usage", ⟨0, 85, "%"⟩)]

/-- `Z_SCORE_THRESHOLD`: values beyond this many standard deviations are anomalous. -/
def Z_SCORE_THRESHOLD : ℚ := 2.5

/-- `MIN_SAMPLES_FOR_ZSCORE`: minimum samples needed before z-score detection. -/
def MIN_SAMPLES_FOR_ZSCORE : ℕ := 10

/-- The capacity of the `deque(maxlen=100)` used as the value buffer of a
`SensorHistory`.  Note this literal `100` in the field's default factory is
independent of the `max_samples` field. -/
def DEQUE_MAXLEN : ℕ := 100

/-! ## `SensorHistory` -/

/-- The `SensorHistory` dataclass: rolling statistics for one channel. -/
structure SensorHistory where
  max_samples : ℕ
  values : List ℚ
  count : ℕ
  mean : ℚ
  m2 : ℚ
deriving DecidableEq

/-- `SensorHistory(max_samples=n)` with the dataclass field defaults. -/
def SensorHistory.new (max_samples : ℕ) : SensorHistory :=
  ⟨max_samples, [], 0, 0, 0⟩

/-- Appending to a `deque` with a `maxlen`: the new element goes to the right
and the oldest elements are discarded from the left once over capacity. -/
def dequeAppend (maxlen : ℕ) (xs : List ℚ) (v : ℚ) : List ℚ :=
  let ys := xs ++ [v]
  if maxlen < ys.length then ys.drop (ys.length - maxlen) else ys

/-- `SensorHistory._recalculate_stats`: recompute `count`, `mean`, `m2` from
the current buffer. -/
def SensorHistory.recalculate_stats (h : SensorHistory) : SensorHistory :=
  if h.values = [] then { h with count := 0, mean := 0, m2 := 0 }
  else
    { h with
      count := h.values.length,
      mean := h.values.sum / (h.values.length : ℚ),
      m2 := (h.values.map (fun x => (x - h.values.sum / (h.values.length : ℚ)) ^ 2)).sum }

/-- `SensorHistory.add_value`: append a value; below `max_samples` update the
running statistics with Welford's incremental step, otherwise recompute them
from the buffer. -/
def SensorHistory.add_value (h : SensorHistory) (value : ℚ) : SensorHistory :=
  if h.max_samples ≤ h.values.length then
    ({ h with values := dequeAppend DEQUE_MAXLEN h.values value }).recalculate_stats
  else
    let count := h.count + 1
    let delta := value - h.mean
    let mean := h.mean + delta / (count : ℚ)
    let delta2 := value - mean
    { h with
      values := dequeAppend DEQUE_MAXLEN h.values value,
      count := count,
      mean := mean,
      m2 := h.m2 + delta * delta2 }

/-- `SensorHistory.variance`: population variance of the stored values. -/
def SensorHistory.variance (h : SensorHistory) : ℚ :=
  if h.count < 2 then 0 else h.m2 / (h.count : ℚ)

/-- `SensorHistory.std_dev`: population standard deviation (`math.sqrt`). -/
noncomputable def SensorHistory.std_dev (h : SensorHistory) : ℝ :=
  Real.sqrt (h.variance : ℝ)

open Classical in
/-- `SensorHistory.get_zscore`: z-score of a value, `None` when there is not
enough data or the spread is zero while the value differs from the mean. -/
noncomputable def SensorHistory.get_zscore (h : SensorHistory) (value : ℚ) : Option ℝ :=
  if h.count < MIN_SAMPLES_FOR_ZSCORE then none
  else if h.std_dev = 0 then (if value = h.mean then some 0 else none)
  else some (((value : ℝ) - (h.mean : ℝ)) / h.std_dev)

/-! ## Result shapes of the detector -/

/-- The `violation` value of a threshold check. -/
inductive ThresholdViolation
  | below_min
  | above_max
deriving DecidableEq

/-- Result dict of `check_threshold`: either the `checked=False` shape or the
full shape. -/
inductive ThresholdResult
  | unchecked (reason : String)
  | result (is_anomaly : Bool) (value min_threshold max_threshold : ℚ)
      (violation : Option ThresholdViolation)
deriving DecidableEq

/-- The `checked` field of a threshold-check dict. -/
def ThresholdResult.isChecked : ThresholdResult → Bool
  | .unchecked _ => false
  | .result _ _ _ _ _ => true

/-- `threshold_result.get("is_anomaly")`, where a missing key reads as falsy. -/
def ThresholdResult.isAnomaly : ThresholdResult → Bool
  | .unchecked _ => false
  | .result a _ _ _ _ => a

/-- The `violation` field of a threshold-check dict (absent reads as `None`). -/
def ThresholdResult.violationO : ThresholdResult → Option ThresholdViolation
  | .unchecked _ => none
  | .result _ _ _ _ vio => vio

/-- How a `violation` value prints inside the f-string
`f"threshold_{threshold_result['violation']}"`. -/
def violationName : Option ThresholdViolation → String
  | some .below_min => "below_min"
  | some .above_max => "above_max"
  | none => "None"

/-- Result dict of `check_zscore`: either the `checked=False` shape (with the
calibration progress counters) or the full shape. -/
inductive ZscoreResult
  | unchecked (reason : String) (samples_needed samples_collected : ℕ)
  | result (is_anomaly : Bool) (zscore : ℝ) (threshold : ℚ) (mean : ℚ) (std_dev : ℝ)

/-- The `checked` field of a z-score-check dict. -/
def ZscoreResult.isChecked : ZscoreResult → Bool
  | .unchecked _ _ _ => false
  | .result _ _ _ _ _ => true

/-- `zscore_result.get("is_anomaly")`, where a missing key reads as falsy. -/
def ZscoreResult.isAnomaly : ZscoreResult → Bool
  | .unchecked _ _ _ => false
  | .result a _ _ _ _ => a

/-! ## Samples and detection results -/

/-- One entry of a sample's `readings` dict (`value` may be missing/None). -/
structure Reading where
  value : Option ℚ
  unit : String
deriving DecidableEq

/-- The sensor-data dict handed to `analyze` (fields read via `.get`). -/
structure Sample where
  timestamp : Option String
  sensor_id : Option String
  location : Option String
  readings : List (String × Reading)
deriving DecidableEq

/-- The per-channel entry stored in the `summary` of a detection result. -/
structure SensorResult where
  value : ℚ
  unit : String
  reasons : List String
  threshold_result : ThresholdResult
  zscore_result : Option ZscoreResult

/-- The `metadata` of a detection result. -/
structure DetectionMeta where
  timestamp : Option String
  sensor_id : Option String
  location : Option String
  detection_methods : List String

/-- The detection result returned by `analyze`. -/
structure DetectionResult where
  anomaly_detected : Bool
  triggered_sensors : List String
  summary : List (String × SensorResult)
  metadata : DetectionMeta

/-! ## `AnomalyDetector` -/

/-- The `AnomalyDetector` object: constructor-time configuration plus the
mutable per-channel history dict. -/
structure AnomalyDetector where
  thresholds : List (String × ThresholdConfig)
  z_score_threshold : ℚ
  use_zscore : Bool
  history_size : ℕ
  sensor_history : List (String × SensorHistory)
deriving DecidableEq

/-- `AnomalyDetector()` with all constructor defaults. -/
def defaultDetector : AnomalyDetector :=
  ⟨THRESHOLDS, Z_SCORE_THRESHOLD, true, 100, []⟩

/-- `AnomalyDetector._get_or_create_history`: return the channel's history
tracker, creating (and storing) a fresh one on first observation. -/
def AnomalyDetector.get_or_create_history (d : AnomalyDetector) (sensor_name : String) :
    SensorHistory × AnomalyDetector :=
  match alistGet d.sensor_history sensor_name with
  | some h => (h, d)
  | none =>
      let h := SensorHistory.new d.history_size
      (h, { d with sensor_history := alistSet d.sensor_history sensor_name h })

/-- `AnomalyDetector.check_threshold`. -/
def AnomalyDetector.check_threshold (d : AnomalyDetector) (sensor_name : String)
    (value : ℚ) : ThresholdResult :=
  match alistGet d.thresholds sensor_name with
  | none => .unchecked "no_threshold_config"
  | some config =>
      .result (decide (value < config.min ∨ value > config.max)) value config.min config.max
        (if value < config.min then some .below_min
         else if value > config.max then some .above_max
         else none)

open Classical in
/-- `AnomalyDetector.check_zscore` (state passing: creating the history on
first observation mutates the detector). -/
noncomputable def AnomalyDetector.check_zscore (d : AnomalyDetector) (sensor_name : String)
    (value : ℚ) : ZscoreResult × AnomalyDetector :=
  let p := d.get_or_create_history sensor_name
  match p.1.get_zscore value with
  | none =>
      (.unchecked "insufficient_history" MIN_SAMPLES_FOR_ZSCORE p.1.count, p.2)
  | some zscore =>
      (.result (decide (|zscore| > (d.z_score_threshold : ℝ))) zscore d.z_score_threshold
        p.1.mean p.1.std_dev, p.2)

/-- The body of the `for sensor_name, reading in readings.items()` loop of
`analyze`, for one reading with a present value: run the threshold check,
optionally run the z-score check and only afterwards add the value to the
channel's history; return the updated detector and the per-channel entry. -/
noncomputable def processValue (d : AnomalyDetector) (sensor_name : String) (value : ℚ)
    (u : String) : AnomalyDetector × SensorResult :=
  let threshold_result := d.check_threshold sensor_name value
  let treasons : List String :=
    if threshold_result.isAnomaly then
      ["threshold_" ++ violationName threshold_result.violationO]
    else []
  if d.use_zscore then
    let z := d.check_zscore sensor_name value
    let zreasons : List String := if z.1.isAnomaly then ["zscore_exceeded"] else []
    let p := z.2.get_or_create_history sensor_name
    let d₁ : AnomalyDetector :=
      { p.2 with sensor_history := alistSet p.2.sensor_history sensor_name (p.1.add_value value) }
    (d₁, ⟨value, u, treasons ++ zreasons, threshold_result, some z.1⟩)
  else
    (d, ⟨value, u, treasons, threshold_result, none⟩)

/-- One iteration of the `analyze` loop over the accumulated
(detector, triggered_sensors, summary) state: a missing value skips the
channel; a triggered channel is appended to both accumulators. -/
noncomputable def analyzeReading
    (st : AnomalyDetector × List String × List (String × SensorResult))
    (entry : String × Reading) :
    AnomalyDetector × List String × List (String × SensorResult) :=
  match entry.2.value with
  | none => st
  | some value =>
      let p := processValue st.1 entry.1 value entry.2.unit
      if p.2.reasons = [] then (p.1, st.2.1, st.2.2)
      else (p.1, st.2.1 ++ [entry.1], st.2.2 ++ [(entry.1, p.2)])

/-- `AnomalyDetector.analyze` (state passing: returns the detection result and
the detector with its updated per-channel histories). -/
noncomputable def AnomalyDetector.analyze (d : AnomalyDetector) (sensor_data : Sample) :
    DetectionResult × AnomalyDetector :=
  let r := sensor_data.readings.foldl analyzeReading (d, [], [])
  (⟨decide (0 < r.2.1.length), r.2.1, r.2.2,
    ⟨sensor_data.timestamp, sensor_data.sensor_id, sensor_data.location,
     ["threshold"] ++ (if d.use_zscore then ["zscore"] else [])⟩⟩,
   r.1)

/-- `AnomalyDetector.reset_history`: drop one channel's history, or all of
them when the argument is `None` — or, by Python truthiness, the empty
string. -/
def AnomalyDetector.reset_history (d : AnomalyDetector) (sensor_name : Option String) :
    AnomalyDetector :=
  match sensor_name with
  | some name =>
      if name = "" then { d with sensor_history := [] }
      else { d with sensor_history := alistDel d.sensor_history name }
  | none => { d with sensor_history := [] }

/-! ## `breach_correlator.py` -/

/-- `BREACH_LEVEL_LABELS`: severity labels for display. -/
def BREACH_LEVEL_LABELS : List (ℕ × String) :=
  [(0, "All clear"),
   (1, "Minor fluctuation"),
   (2, "Elevated"),
   (3, "Unusual activity"),
   (4, "Gate resonance"),
   (5, "Dimensional stress"),
   (6, "Portal instability"),
   (7, "Breach imminent"),
   (8, "Upside Down contact"),
   (9, "Full breach"),
   (10, "Critical — evacuate")]

/-- The `BreachAssessment` dataclass. -/
structure BreachAssessment where
  level : ℕ
  label : String
  triggered_sensors : List String
  num_triggered : ℕ
  is_multi_sensor : Bool
  recommendation : String
deriving DecidableEq

/-- The `critical_sensors` set of `compute_breach_level`. -/
def critical_sensors : List String := ["temperature", "gas"]

/-- `compute_breach_level`: Upside Down breach severity from an anomaly
detection result. -/
def compute_breach_level (anomaly_result : DetectionResult) : BreachAssessment :=
  let triggered := anomaly_result.triggered_sensors
  let num := triggered.length
  let level₀ : ℕ :=
    if num = 0 then 0
    else if num = 1 then 2
    else if num = 2 then 4
    else if num = 3 then 6
    else 8
  let level₁ :=
    triggered.foldl (fun lv s => if s ∈ critical_sensors then min 10 (lv + 1) else lv) level₀
  let level := min 10 level₁
  let label := (alistGet BREACH_LEVEL_LABELS level).getD "Unknown"
  let rec₀ : String :=
    if level = 0 then "Continue standard monitoring."
    else if level ≤ 3 then "Increase scan frequency. Watch for additional triggers."
    else if level ≤ 6 then "Alert Hawkins Lab security. Prepare containment protocols."
    else if level ≤ 8 then "Initiate lockdown procedures. Contact Eleven."
    else "EVACUATE. Full Upside Down breach protocol."
  ⟨level, label, triggered, num, decide (2 ≤ num), rec₀⟩

/-! ## Spec-side reference definitions

These re-state, per channel, what one loop iteration of `analyze` produces,
and the closed-form severity arithmetic of §4.3 of the spec; the theorems
below relate them to the embedded code. -/

/-- The reasons accumulated for one reading by the `analyze` loop, expressed
directly in terms of the two checks run against the given detector state. -/
noncomputable def reasonsSpec (d : AnomalyDetector) (c : String) (v : ℚ) : List String :=
  (if (d.check_threshold c v).isAnomaly then
     ["threshold_" ++ violationName (d.check_threshold c v).violationO]
   else [])
  ++ (if d.use_zscore then
        (if (d.check_zscore c v).1.isAnomaly then ["zscore_exceeded"] else [])
      else [])

/-- The summary entry the `analyze` loop builds for one reading, expressed in
terms of the checks run against the given detector state. -/
noncomputable def sensorResultSpec (d : AnomalyDetector) (c : String) (v : ℚ) (u : String) :
    SensorResult :=
  ⟨v, u, reasonsSpec d c v, d.check_threshold c v,
   if d.use_zscore then some (d.check_zscore c v).1 else none⟩

/-- What one `readings` entry contributes to `triggered_sensors`/`summary`
when checked against the given detector state: nothing for a missing value or
an un-triggered channel, the summary pair otherwise. -/
noncomputable def entryOut (d : AnomalyDetector) (entry : String × Reading) :
    Option (String × SensorResult) :=
  match entry.2.value with
  | none => none
  | some v =>
      if reasonsSpec d entry.1 v = [] then none
      else some (entry.1, sensorResultSpec d entry.1 v entry.2.unit)

/-- The two detectors share every constructor-time configuration field
(they may differ in their mutable history dict). -/
def configEq (d d₀ : AnomalyDetector) : Prop :=
  d.thresholds = d₀.thresholds ∧ d.z_score_threshold = d₀.z_score_threshold ∧
  d.use_zscore = d₀.use_zscore ∧ d.history_size = d₀.history_size

/-- Spec §4.3: base level by step function `n=0→0, n=1→2, n=2→4, n=3→6, n≥4→8`. -/
def baseLevel (n : ℕ) : ℕ :=
  if n = 0 then 0 else if n = 1 then 2 else if n = 2 then 4 else if n = 3 then 6 else 8

/-- How many of the triggered channels belong to the critical set. -/
def countCritical (l : List String) : ℕ :=
  l.countP (fun s => decide (s ∈ critical_sensors))

/-- Spec §8 / §4.1: from-scratch sample mean of a buffer (sum over length). -/
def fromScratchMean (xs : List ℚ) : ℚ :=
  xs.sum / (xs.length : ℚ)

/-- Spec §8 / §4.1: from-scratch sum of squared deviations of a buffer from
its own from-scratch mean. -/
def fromScratchSumSqDev (xs : List ℚ) : ℚ :=
  (xs.map (fun x => (x - fromScratchMean xs) ^ 2)).sum

/-! ## Concrete test vectors -/

/-- The values `1..100`. -/
def window_input : List ℚ :=
  [1, 2, 3, 4, 5, 6, 7, 8, 9, 10, 11, 12, 13, 14, 15, 16, 17, 18, 19, 20, 21, 22, 23, 24,
   25, 26, 27, 28, 29, 30, 31, 32, 33, 34, 35, 36, 37, 38, 39, 40, 41, 42, 43, 44, 45, 46,
   47, 48, 49, 50, 51, 52, 53, 54, 55, 56, 57, 58, 59, 60, 61, 62, 63, 64, 65, 66, 67, 68,
   69, 70, 71, 72, 73, 74, 75, 76, 77, 78, 79, 80, 81, 82, 83, 84, 85, 86, 87, 88, 89, 90,
   91, 92, 93, 94, 95, 96, 97, 98, 99, 100]

/-- The values `2..101` (the window retained after the 101st addition). -/
def window_shifted : List ℚ :=
  [2, 3, 4, 5, 6, 7, 8, 9, 10, 11, 12, 13, 14, 15, 16, 17, 18, 19, 20, 21, 22, 23, 24,
   25, 26, 27, 28, 29, 30, 31, 32, 33, 34, 35, 36, 37, 38, 39, 40, 41, 42, 43, 44, 45, 46,
   47, 48, 49, 50, 51, 52, 53, 54, 55, 56, 57, 58, 59, 60, 61, 62, 63, 64, 65, 66, 67, 68,
   69, 70, 71, 72, 73, 74, 75, 76, 77, 78, 79, 80, 81, 82, 83, 84, 85, 86, 87, 88, 89, 90,
   91, 92, 93, 94, 95, 96, 97, 98, 99, 100, 101]

/-- History of a channel after feeding `1..100` and then `101` into a
default-sized (`max_samples = 100`) tracker. -/
def hist101 : SensorHistory :=
  (window_input ++ [101]).foldl SensorHistory.add_value (SensorHistory.new 100)

/-- A detector constructed with `history_size=2` (and defaults otherwise). -/
def smallWindowDetector : AnomalyDetector :=
  ⟨THRESHOLDS, Z_SCORE_THRESHOLD, true, 2, []⟩

/-- The channel history such a detector creates, after three values. -/
def smallWindowHist : SensorHistory :=
  (((smallWindowDetector.get_or_create_history "temperature").1.add_value 1).add_value
      2).add_value 3

/-- A concrete calibrated history: 12 retained values, mean 5, `m2 = 48`
(so the population variance is 4 and the standard deviation 2). -/
def calibratedHist : SensorHistory :=
  ⟨100, [2, 4, 6, 8, 3, 7, 5, 5, 4, 6, 2, 8], 12, 5, 48⟩

/-- A detector holding `calibratedHist` for the temperature channel. -/
def calibratedDetector : AnomalyDetector :=
  ⟨THRESHOLDS, Z_SCORE_THRESHOLD, true, 100, [("temperature", calibratedHist)]⟩

/-- A history that has seen exactly 9 values (one short of the z-score
minimum-sample floor). -/
def nineSampleHist : SensorHistory :=
  ⟨100, [23, 22, 24, 23, 22, 23, 24, 23, 22], 9, 23, 4⟩

/-- A detector holding `nineSampleHist` for the temperature channel. -/
def nineSampleDetector : AnomalyDetector :=
  ⟨THRESHOLDS, Z_SCORE_THRESHOLD, true, 100, [("temperature", nineSampleHist)]⟩

/-- A detector holding statistics for two channels. -/
def twoChannelDetector : AnomalyDetector :=
  ⟨THRESHOLDS, Z_SCORE_THRESHOLD, true, 100,
   [("temperature", nineSampleHist), ("gas", calibratedHist)]⟩

/-- A detector constructed with `use_zscore=False` (and defaults otherwise). -/
def thresholdOnlyDetector : AnomalyDetector :=
  ⟨THRESHOLDS, Z_SCORE_THRESHOLD, false, 100, []⟩

/-- A sample with one out-of-range temperature reading and one normal gas
reading. -/
def demoSample : Sample :=
  ⟨some "2026-01-01T00:00:00", some "HAWK-001", some "lab_east",
   [("temperature", ⟨some 40, "¬∞C"⟩), ("gas", ⟨some 50, "ppm"⟩)]⟩

/-- A detection result with the given triggered channel list (as
`compute_breach_level` reads it). -/
def mkDetectionResult (l : List String) : DetectionResult :=
  ⟨decide (0 < l.length), l, [], ⟨none, none, none, ["threshold"]⟩⟩

/-! ## Association-list lemmas -/

theorem alistGet_set_self {α β : Type} [DecidableEq α] (m : List (α × β)) (k : α) (v : β) :
    alistGet (alistSet m k v) k = some v := by
  induction m with
  | nil => simp [alistSet, alistGet]
  | cons p rest ih =>
      obtain ⟨k₀, v₀⟩ := p
      by_cases h : k₀ = k
      · simp [alistSet, alistGet, h]
      · simp [alistSet, alistGet, h, ih]

theorem alistGet_set_ne {α β : Type} [DecidableEq α] (m : List (α × β)) (k k' : α) (v : β)
    (h : k' ≠ k) : alistGet (alistSet m k v) k' = alistGet m k' := by
  induction m with
  | nil => simp [alistSet, alistGet, Ne.symm h]
  | cons p rest ih =>
      obtain ⟨k₀, v₀⟩ := p
      by_cases h₀ : k₀ = k
      · subst h₀
        simp [alistSet, alistGet, Ne.symm h]
      · simp [alistSet, alistGet, h₀, ih]

theorem alistGet_del_ne {α β : Type} [DecidableEq α] (m : List (α × β)) (k k' : α)
    (h : k' ≠ k) : alistGet (alistDel m k) k' = alistGet m k' := by
  induction m with
  | nil => simp [alistDel]
  | cons p rest ih =>
      obtain ⟨k₀, v₀⟩ := p
      by_cases h₀ : k₀ = k
      · subst h₀
        simp [alistDel, alistGet, Ne.symm h]
      · simp [alistDel, alistGet, h₀, ih]

theorem alistGet_eq_none_of_not_mem {α β : Type} [DecidableEq α] (m : List (α × β)) (k : α)
    (h : k ∉ m.map Prod.fst) : alistGet m k = none := by
  induction m with
  | nil => simp [alistGet]
  | cons p rest ih =>
      obtain ⟨k₀, v₀⟩ := p
      simp only [List.map_cons, List.mem_cons] at h
      push_neg at h
      simp [alistGet, Ne.symm h.1, ih h.2]

theorem alistGet_del_self {α β : Type} [DecidableEq α] (m : List (α × β)) (k : α)
    (hnd : (m.map Prod.fst).Nodup) : alistGet (alistDel m k) k = none := by
  induction m with
  | nil => simp [alistDel, alistGet]
  | cons p rest ih =>
      obtain ⟨k₀, v₀⟩ := p
      simp only [List.map_cons, List.nodup_cons] at hnd
      by_cases h₀ : k₀ = k
      · subst h₀
        simpa [alistDel] using alistGet_eq_none_of_not_mem rest k₀ hnd.1
      · simp [alistDel, alistGet, h₀, ih hnd.2]

theorem alistDel_of_get_none {α β : Type} [DecidableEq α] (m : List (α × β)) (k : α)
    (h : alistGet m k = none) : alistDel m k = m := by
  induction m with
  | nil => simp [alistDel]
  | cons p rest ih =>
      obtain ⟨k₀, v₀⟩ := p
      by_cases h₀ : k₀ = k
      · simp [alistGet, h₀] at h
      · simp only [alistGet, if_neg h₀] at h
        simp [alistDel, h₀, ih h]

/-! ## Frame and congruence lemmas for the detector's stateful methods -/

theorem configEq_refl (d : AnomalyDetector) : configEq d d := ⟨rfl, rfl, rfl, rfl⟩

theorem configEq_trans {d₁ d₂ d₃ : AnomalyDetector} (h₁ : configEq d₁ d₂)
    (h₂ : configEq d₂ d₃) : configEq d₁ d₃ :=
  ⟨h₁.1.trans h₂.1, h₁.2.1.trans h₂.2.1, h₁.2.2.1.trans h₂.2.2.1, h₁.2.2.2.trans h₂.2.2.2⟩

theorem get_or_create_snd_configEq (d : AnomalyDetector) (c : String) :
    configEq (d.get_or_create_history c).2 d := by
  cases heq : alistGet d.sensor_history c <;>
    simp [AnomalyDetector.get_or_create_history, heq, configEq]

theorem get_or_create_snd_get_ne (d : AnomalyDetector) (c c' : String) (h : c' ≠ c) :
    alistGet (d.get_or_create_history c).2.sensor_history c'
      = alistGet d.sensor_history c' := by
  cases heq : alistGet d.sensor_history c <;>
    simp [AnomalyDetector.get_or_create_history, heq, alistGet_set_ne _ _ _ _ h]

theorem check_zscore_snd_configEq (d : AnomalyDetector) (c : String) (v : ℚ) :
    configEq (d.check_zscore c v).2 d := by
  cases hz : (d.get_or_create_history c).1.get_zscore v <;>
    simpa [AnomalyDetector.check_zscore, hz] using get_or_create_snd_configEq d c

theorem check_zscore_snd_get_ne (d : AnomalyDetector) (c c' : String) (v : ℚ) (h : c' ≠ c) :
    alistGet (d.check_zscore c v).2.sensor_history c' = alistGet d.sensor_history c' := by
  cases hz : (d.get_or_create_history c).1.get_zscore v <;>
    simpa [AnomalyDetector.check_zscore, hz] using get_or_create_snd_get_ne d c c' h

theorem processValue_fst_configEq (d : AnomalyDetector) (c : String) (v : ℚ) (u : String) :
    configEq (processValue d c v u).1 d := by
  by_cases hu : d.use_zscore
  · have h₁ := check_zscore_snd_configEq d c v
    have h₂ := get_or_create_snd_configEq (d.check_zscore c v).2 c
    simp only [processValue, hu, if_true]
    exact configEq_trans (configEq_trans ⟨rfl, rfl, rfl, rfl⟩ h₂) h₁
  · simp [processValue, hu, configEq]

theorem processValue_fst_get_ne (d : AnomalyDetector) (c c' : String) (v : ℚ) (u : String)
    (h : c' ≠ c) :
    alistGet (processValue d c v u).1.sensor_history c' = alistGet d.sensor_history c' := by
  by_cases hu : d.use_zscore
  · simp only [processValue, hu, if_true]
    rw [alistGet_set_ne _ _ _ _ h, get_or_create_snd_get_ne _ _ _ h,
      check_zscore_snd_get_ne _ _ _ _ h]
  · simp [processValue, hu]

theorem check_threshold_congr {d d₀ : AnomalyDetector} (c : String) (v : ℚ)
    (h : d.thresholds = d₀.thresholds) :
    d.check_threshold c v = d₀.check_threshold c v := by
  unfold AnomalyDetector.check_threshold
  rw [h]

theorem get_or_create_fst_congr {d d₀ : AnomalyDetector} (c : String)
    (hh : alistGet d.sensor_history c = alistGet d₀.sensor_history c)
    (hs : d.history_size = d₀.history_size) :
    (d.get_or_create_history c).1 = (d₀.get_or_create_history c).1 := by
  unfold AnomalyDetector.get_or_create_history
  rw [hh]
  cases alistGet d₀.sensor_history c <;> simp [hs]

theorem check_zscore_fst_congr {d d₀ : AnomalyDetector} (c : String) (v : ℚ)
    (hcfg : configEq d d₀)
    (hh : alistGet d.sensor_history c = alistGet d₀.sensor_history c) :
    (d.check_zscore c v).1 = (d₀.check_zscore c v).1 := by
  have hfst := get_or_create_fst_congr c hh hcfg.2.2.2
  simp only [AnomalyDetector.check_zscore]
  rw [hfst, hcfg.2.1]
  cases hgz : (d₀.get_or_create_history c).1.get_zscore v <;> simp [hgz]

theorem reasonsSpec_congr {d d₀ : AnomalyDetector} (c : String) (v : ℚ)
    (hcfg : configEq d d₀)
    (hh : alistGet d.sensor_history c = alistGet d₀.sensor_history c) :
    reasonsSpec d c v = reasonsSpec d₀ c v := by
  unfold reasonsSpec
  rw [check_threshold_congr c v hcfg.1, check_zscore_fst_congr c v hcfg hh, hcfg.2.2.1]

theorem sensorResultSpec_congr {d d₀ : AnomalyDetector} (c : String) (v : ℚ) (u : String)
    (hcfg : configEq d d₀)
    (hh : alistGet d.sensor_history c = alistGet d₀.sensor_history c) :
    sensorResultSpec d c v u = sensorResultSpec d₀ c v u := by
  unfold sensorResultSpec
  rw [check_threshold_congr c v hcfg.1, check_zscore_fst_congr c v hcfg hh, hcfg.2.2.1,
    reasonsSpec_congr c v hcfg hh]

theorem processValue_snd (d : AnomalyDetector) (c : String) (v : ℚ) (u : String) :
    (processValue d c v u).2 = sensorResultSpec d c v u := by
  by_cases hu : d.use_zscore <;>
    simp [processValue, sensorResultSpec, reasonsSpec, hu]

/-! ## Characterisation of the `analyze` fold -/

theorem reasonsSpec_ne_nil_iff (d : AnomalyDetector) (c : String) (v : ℚ) :
    reasonsSpec d c v ≠ [] ↔
      ((d.check_threshold c v).isAnomaly = true
        ∨ (d.use_zscore = true ∧ (d.check_zscore c v).1.isAnomaly = true)) := by
  unfold reasonsSpec
  by_cases h₁ : (d.check_threshold c v).isAnomaly <;>
    by_cases h₂ : d.use_zscore <;>
    by_cases h₃ : (d.check_zscore c v).1.isAnomaly <;>
    simp [h₁, h₂, h₃]

theorem entryOut_fst {d : AnomalyDetector} {e : String × Reading} {pr : String × SensorResult}
    (h : entryOut d e = some pr) : pr.1 = e.1 := by
  unfold entryOut at h
  cases hv : e.2.value with
  | none => rw [hv] at h; simp at h
  | some v =>
      rw [hv] at h
      by_cases hre : reasonsSpec d e.1 v = []
      · simp [hre] at h
      · simp only [hre, if_neg hre, reduceCtorEq, ite_false, Option.some.injEq] at h
        rw [← h]

theorem mem_filterMap_entryOut_shape {d : AnomalyDetector} {L : List (String × Reading)}
    {pr : String × SensorResult} (h : pr ∈ L.filterMap (entryOut d)) :
    ∃ c v u, pr = (c, sensorResultSpec d c v u) ∧ reasonsSpec d c v ≠ [] := by
  rw [List.mem_filterMap] at h
  obtain ⟨e, _, hout⟩ := h
  unfold entryOut at hout
  cases hv : e.2.value with
  | none => rw [hv] at hout; simp at hout
  | some v =>
      rw [hv] at hout
      by_cases hre : reasonsSpec d e.1 v = []
      · simp [hre] at hout
      · simp only [hre, if_neg hre, reduceCtorEq, ite_false, Option.some.injEq] at hout
        exact ⟨e.1, v, e.2.unit, hout.symm, hre⟩

theorem keys_filterMap_entryOut_sub (d : AnomalyDetector) (L : List (String × Reading)) :
    ∀ x ∈ (L.filterMap (entryOut d)).map Prod.fst, x ∈ L.map Prod.fst := by
  intro x hx
  rw [List.mem_map] at hx
  obtain ⟨pr, hpr, hfst⟩ := hx
  rw [List.mem_filterMap] at hpr
  obtain ⟨e, he, hout⟩ := hpr
  rw [List.mem_map]
  exact ⟨e, he, by rw [← hfst, entryOut_fst hout]⟩

theorem mem_keys_filterMap_entryOut_iff (d : AnomalyDetector) :
    ∀ (L : List (String × Reading)), (L.map Prod.fst).Nodup → ∀ e ∈ L,
      (e.1 ∈ (L.filterMap (entryOut d)).map Prod.fst ↔ (entryOut d e).isSome = true) := by
  intro L
  induction L with
  | nil => simp
  | cons hd tl ih =>
      intro hnd e he
      simp only [List.map_cons, List.nodup_cons] at hnd
      rcases List.mem_cons.mp he with he | he
      · subst he
        cases hout : entryOut d e with
        | none =>
            simp only [List.filterMap_cons, hout, Option.isSome_none, Bool.false_eq_true,
              iff_false]
            intro hmem
            exact hnd.1 (keys_filterMap_entryOut_sub d tl _ hmem)
        | some pr =>
            have := entryOut_fst hout
            simp [List.filterMap_cons, hout, this]
      · have hkey : e.1 ∈ tl.map Prod.fst := List.mem_map.mpr ⟨e, he, rfl⟩
        have hne : e.1 ≠ hd.1 := fun hx => hnd.1 (hx ▸ hkey)
        cases hout : entryOut d hd with
        | none =>
            rw [List.filterMap_cons, hout]
            exact ih hnd.2 e he
        | some pr =>
            rw [List.filterMap_cons, hout]
            have hpr : pr.1 = hd.1 := entryOut_fst hout
            simp only [List.map_cons, List.mem_cons, hpr]
            rw [ih hnd.2 e he]
            simp [hne]

theorem foldl_analyzeReading_spec (d₀ : AnomalyDetector) :
    ∀ (L : List (String × Reading)) (d : AnomalyDetector) (trig : List String)
      (summ : List (String × SensorResult)),
      (L.map Prod.fst).Nodup →
      configEq d d₀ →
      (∀ c ∈ L.map Prod.fst, alistGet d.sensor_history c = alistGet d₀.sensor_history c) →
      (L.foldl analyzeReading (d, trig, summ)).2.1
          = trig ++ (L.filterMap (entryOut d₀)).map Prod.fst
        ∧ (L.foldl analyzeReading (d, trig, summ)).2.2 = summ ++ L.filterMap (entryOut d₀) := by
  intro L
  induction L with
  | nil => intro d trig summ _ _ _; simp
  | cons e rest ih =>
      intro d trig summ hnd hcfg hagree
      obtain ⟨c, r⟩ := e
      simp only [List.map_cons, List.nodup_cons] at hnd
      have hagree_c : alistGet d.sensor_history c = alistGet d₀.sensor_history c :=
        hagree c (by simp)
      cases hv : r.value with
      | none =>
          have hstep : analyzeReading (d, trig, summ) (c, r) = (d, trig, summ) := by
            simp [analyzeReading, hv]
          rw [List.foldl_cons, hstep, List.filterMap_cons]
          have hout : entryOut d₀ (c, r) = none := by simp [entryOut, hv]
          rw [hout]
          exact ih d trig summ hnd.2 hcfg
            (fun c' hc' => hagree c' (by rw [List.map_cons]; exact List.mem_cons_of_mem _ hc'))
      | some v =>
          have hpv2 : (processValue d c v r.unit).2 = sensorResultSpec d₀ c v r.unit :=
            (processValue_snd d c v r.unit).trans
              (sensorResultSpec_congr c v r.unit hcfg hagree_c)
          have hreasons : (processValue d c v r.unit).2.reasons = reasonsSpec d₀ c v := by
            rw [hpv2]; rfl
          have hout : entryOut d₀ (c, r) =
              (if reasonsSpec d₀ c v = [] then none
               else some (c, sensorResultSpec d₀ c v r.unit)) := by
            simp [entryOut, hv]
          have hcfg₁ : configEq (processValue d c v r.unit).1 d₀ :=
            configEq_trans (processValue_fst_configEq d c v r.unit) hcfg
          have hagree₁ : ∀ c' ∈ rest.map Prod.fst,
              alistGet (processValue d c v r.unit).1.sensor_history c'
                = alistGet d₀.sensor_history c' := by
            intro c' hc'
            have hne : c' ≠ c := fun hx => hnd.1 (hx ▸ hc')
            rw [processValue_fst_get_ne d c c' v r.unit hne]
            exact hagree c' (by rw [List.map_cons]; exact List.mem_cons_of_mem _ hc')
          rw [List.foldl_cons, List.filterMap_cons, hout]
          simp only [analyzeReading, hv]
          rw [hreasons, hpv2]
          by_cases hre : reasonsSpec d₀ c v = []
          · rw [if_pos hre, if_pos hre]
            exact ih _ trig summ hnd.2 hcfg₁ hagree₁
          · rw [if_neg hre, if_neg hre]
            have := ih _ (trig ++ [c]) (summ ++ [(c, sensorResultSpec d₀ c v r.unit)])
              hnd.2 hcfg₁ hagree₁
            simpa using this

theorem analyze_triggered (d : AnomalyDetector) (s : Sample) :
    (d.analyze s).1.triggered_sensors = (s.readings.foldl analyzeReading (d, [], [])).2.1 :=
  rfl

theorem analyze_summary (d : AnomalyDetector) (s : Sample) :
    (d.analyze s).1.summary = (s.readings.foldl analyzeReading (d, [], [])).2.2 :=
  rfl

theorem analyze_anomaly_detected (d : AnomalyDetector) (s : Sample) :
    (d.analyze s).1.anomaly_detected
      = decide (0 < (s.readings.foldl analyzeReading (d, [], [])).2.1.length) :=
  rfl

theorem analyze_snd (d : AnomalyDetector) (s : Sample) :
    (d.analyze s).2 = (s.readings.foldl analyzeReading (d, [], [])).1 :=
  rfl

theorem foldl_analyzeReading_keys_eq :
    ∀ (L : List (String × Reading)) (d : AnomalyDetector) (trig : List String)
      (summ : List (String × SensorResult)),
      summ.map Prod.fst = trig →
      ((L.foldl analyzeReading (d, trig, summ)).2.2).map Prod.fst
        = (L.foldl analyzeReading (d, trig, summ)).2.1 := by
  intro L
  induction L with
  | nil => intro d trig summ h; simpa using h
  | cons e rest ih =>
      intro d trig summ h
      rw [List.foldl_cons]
      cases hv : e.2.value with
      | none =>
          have hstep : analyzeReading (d, trig, summ) e = (d, trig, summ) := by
            simp [analyzeReading, hv]
          rw [hstep]
          exact ih d trig summ h
      | some v =>
          simp only [analyzeReading, hv]
          by_cases hre : (processValue d e.1 v e.2.unit).2.reasons = []
          · rw [if_pos hre]
            exact ih _ trig summ h
          · rw [if_neg hre]
            exact ih _ (trig ++ [e.1]) (summ ++ [(e.1, (processValue d e.1 v e.2.unit).2)])
              (by rw [List.map_append, h]; rfl)

theorem foldl_analyzeReading_no_zscore :
    ∀ (L : List (String × Reading)) (d : AnomalyDetector) (trig : List String)
      (summ : List (String × SensorResult)),
      d.use_zscore = false →
      (∀ pr ∈ summ, pr.2.zscore_result = none) →
      (L.foldl analyzeReading (d, trig, summ)).1 = d
        ∧ ∀ pr ∈ (L.foldl analyzeReading (d, trig, summ)).2.2, pr.2.zscore_result = none := by
  intro L
  induction L with
  | nil => intro d trig summ _ hs; exact ⟨rfl, hs⟩
  | cons e rest ih =>
      intro d trig summ hz hs
      rw [List.foldl_cons]
      cases hv : e.2.value with
      | none =>
          have hstep : analyzeReading (d, trig, summ) e = (d, trig, summ) := by
            simp [analyzeReading, hv]
          rw [hstep]
          exact ih d trig summ hz hs
      | some v =>
          have hpv : processValue d e.1 v e.2.unit
              = (d, ⟨v, e.2.unit,
                  (if (d.check_threshold e.1 v).isAnomaly then
                     ["threshold_" ++ violationName (d.check_threshold e.1 v).violationO]
                   else []),
                  d.check_threshold e.1 v, none⟩) := by
            simp [processValue, hz]
          simp only [analyzeReading, hv, hpv]
          by_cases hre : (processValue d e.1 v e.2.unit).2.reasons = [] <;>
            rw [hpv] at hre
          · rw [if_pos hre]
            exact ih d trig summ hz hs
          · rw [if_neg hre]
            refine ih d (trig ++ [e.1]) _ hz ?_
            intro pr hpr
            rcases List.mem_append.mp hpr with hpr | hpr
            · exact hs pr hpr
            · rw [List.mem_singleton.mp hpr]

theorem add_value_count (h : SensorHistory) (v : ℚ)
    (hlen : h.values.length < DEQUE_MAXLEN) :
    (h.add_value v).count
      = if h.max_samples ≤ h.values.length then h.values.length + 1 else h.count + 1 := by
  by_cases hc : h.max_samples ≤ h.values.length
  · have hys : dequeAppend DEQUE_MAXLEN h.values v = h.values ++ [v] := by
      unfold dequeAppend
      rw [if_neg]
      simp only [List.length_append, List.length_singleton]
      omega
    have hne : h.values ++ [v] ≠ [] := by simp
    simp [SensorHistory.add_value, hc, SensorHistory.recalculate_stats, hys, hne]
  · simp [SensorHistory.add_value, hc]

/-! ## Breach-level arithmetic -/

theorem baseLevel_le_eight (n : ℕ) : baseLevel n ≤ 8 := by
  unfold baseLevel
  split_ifs <;> omega

theorem foldl_critical_level (l : List String) :
    ∀ b : ℕ, b ≤ 10 →
      l.foldl (fun lv s => if s ∈ critical_sensors then min 10 (lv + 1) else lv) b
        = min 10 (b + countCritical l) := by
  induction l with
  | nil =>
      intro b hb
      simp only [List.foldl_nil, countCritical, List.countP_nil, Nat.add_zero]
      omega
  | cons hd tl ih =>
      intro b hb
      rw [List.foldl_cons]
      by_cases hcr : hd ∈ critical_sensors
      · rw [if_pos hcr, ih _ (min_le_left _ _)]
        have : countCritical (hd :: tl) = countCritical tl + 1 := by
          simp [countCritical, List.countP_cons, hcr]
        rw [this]
        omega
      · rw [if_neg hcr, ih _ hb]
        have : countCritical (hd :: tl) = countCritical tl := by
          simp [countCritical, List.countP_cons, hcr]
        rw [this]

theorem alistGet_singleton {α β : Type} [DecidableEq α] (k : α) (v : β) :
    alistGet [(k, v)] k = some v := by
  simp [alistGet]

theorem analyze_singleton (d : AnomalyDetector) (c u : String) (v : ℚ)
    (ts sid loc : Option String) :
    d.analyze ⟨ts, sid, loc, [(c, ⟨some v, u⟩)]⟩
      = (⟨decide (0 < (if (processValue d c v u).2.reasons = []
              then ([] : List String) else [c]).length),
          (if (processValue d c v u).2.reasons = [] then [] else [c]),
          (if (processValue d c v u).2.reasons = []
           then [] else [(c, (processValue d c v u).2)]),
          ⟨ts, sid, loc, ["threshold"] ++ (if d.use_zscore then ["zscore"] else [])⟩⟩,
        (processValue d c v u).1) := by
  unfold AnomalyDetector.analyze
  simp only [List.foldl_cons, List.foldl_nil, analyzeReading]
  by_cases hre : (processValue d c v u).2.reasons = [] <;> simp [hre]

theorem compute_breach_level_level (r : DetectionResult) :
    (compute_breach_level r).level
      = min 10 (baseLevel r.triggered_sensors.length + countCritical r.triggered_sensors) := by
  unfold compute_breach_level baseLevel
  dsimp only
  rw [foldl_critical_level]
  · omega
  · split_ifs <;> omega

/-! ## The claims -/

/-- Claim C1: the claim states that for every window capacity `w` supplied at
construction (`history_size`) the per-channel state keeps
`count = min(n, w)` and a buffer of the most recent `min(n, w)` values.  The
code violates this: the buffer deque's capacity is the hardcoded literal
`100` of the field default, independent of `max_samples`, so a detector built
with `history_size = 2` reaches `count = 3` with a 3-element buffer after
three values.  This theorem evaluates the embedded code at that failing
input. -/
theorem C1_window_capacity_code_eval :
    (smallWindowDetector.get_or_create_history "temperature").1
        = SensorHistory.new smallWindowDetector.history_size
      ∧ smallWindowDetector.history_size = 2
      ∧ smallWindowHist.count = 3
      ∧ smallWindowHist.values = [1, 2, 3]
      ∧ smallWindowHist.count ≠ min 3 smallWindowDetector.history_size := by
  decide

/-- Claim C3: for every detection result, `compute_breach_level` returns the
clamp to `[0, 10]` of `base(n) + k` (with `base` the step function
`0→0, 1→2, 2→4, 3→6, ≥4→8` and `k` the number of triggered channels in the
critical set `{temperature, gas}`), the label from the fixed 11-entry table,
the recommendation from the five severity bands, and
`is_multi_sensor = (n ≥ 2)`; in particular the four concrete cases from the
spec. -/
theorem C3_compute_breach_level_spec (r : DetectionResult) :
    (compute_breach_level r).level
        = min 10 (baseLevel r.triggered_sensors.length + countCritical r.triggered_sensors)
      ∧ (compute_breach_level r).level ≤ 10
      ∧ (compute_breach_level r).label
          = (alistGet BREACH_LEVEL_LABELS (compute_breach_level r).level).getD "Unknown"
      ∧ (compute_breach_level r).recommendation
          = (if (compute_breach_level r).level = 0 then "Continue standard monitoring."
             else if (compute_breach_level r).level ≤ 3 then
               "Increase scan frequency. Watch for additional triggers."
             else if (compute_breach_level r).level ≤ 6 then
               "Alert Hawkins Lab security. Prepare containment protocols."
             else if (compute_breach_level r).level ≤ 8 then
               "Initiate lockdown procedures. Contact Eleven."
             else "EVACUATE. Full Upside Down breach protocol.")
      ∧ (compute_breach_level r).is_multi_sensor = decide (2 ≤ r.triggered_sensors.length)
      ∧ (compute_breach_level (mkDetectionResult [])).level = 0
      ∧ (compute_breach_level (mkDetectionResult [])).label = "All clear"
      ∧ (compute_breach_level (mkDetectionResult ["temperature"])).level = 3
      ∧ (compute_breach_level (mkDetectionResult ["gas"])).level = 3
      ∧ (compute_breach_level (mkDetectionResult ["vibration", "cpu_usage", "door"])).level = 6
      ∧ (compute_breach_level
            (mkDetectionResult ["temperature", "gas", "vibration", "cpu_usage"])).level = 10 := by
  refine ⟨compute_breach_level_level r, ?_, rfl, rfl, rfl,
    by decide, by decide, by decide, by decide, by decide, by decide⟩
  rw [compute_breach_level_level r]
  exact min_le_left _ _

/-- Claim C6: for a channel with a configured threshold, `check_threshold`
reports `checked=true`, flags an anomaly iff the value is below the min or
above the max, and reports the violation accordingly (`below_min`,
`above_max`, or none); for an unconfigured channel it returns `checked=false`
with reason `no_threshold_config`; the spec's example `min=15, max=32, v=33`
yields `above_max`. -/
theorem C6_check_threshold_spec (d : AnomalyDetector) (c : String) (v : ℚ) :
    (∀ cfg, alistGet d.thresholds c = some cfg →
        (d.check_threshold c v).isChecked = true
          ∧ ((d.check_threshold c v).isAnomaly = true ↔ (v < cfg.min ∨ v > cfg.max))
          ∧ (d.check_threshold c v).violationO
              = (if v < cfg.min then some ThresholdViolation.below_min
                 else if v > cfg.max then some ThresholdViolation.above_max
                 else none))
      ∧ (alistGet d.thresholds c = none →
          d.check_threshold c v = ThresholdResult.unchecked "no_threshold_config")
      ∧ (defaultDetector.check_threshold "temperature" 33).isAnomaly = true
      ∧ (defaultDetector.check_threshold "temperature" 33).violationO
          = some ThresholdViolation.above_max := by
  refine ⟨?_, ?_, by decide, by decide⟩
  · intro cfg hcfg
    simp [AnomalyDetector.check_threshold, hcfg, ThresholdResult.isChecked,
      ThresholdResult.isAnomaly, ThresholdResult.violationO]
  · intro hnone
    simp [AnomalyDetector.check_threshold, hnone]

/-- Witness for C6 at concrete inputs: the default gas bounds flag 80 ppm as
anomalous, and an unconfigured channel is reported unchecked. -/
theorem C6_check_threshold_spec_witness :
    (defaultDetector.check_threshold "gas" 80).isAnomaly = true
      ∧ defaultDetector.check_threshold "humidity" 50
          = ThresholdResult.unchecked "no_threshold_config" := by
  have H := C6_check_threshold_spec defaultDetector "gas" 80
  have H2 := C6_check_threshold_spec defaultDetector "humidity" 50
  refine ⟨?_, H2.2.1 (by decide)⟩
  exact (H.1 ⟨0, 75, "ppm"⟩ (by decide)).2.1.mpr (Or.inr (by norm_num))

set_option maxRecDepth 4000 in
/-- Claim C7: with the default window capacity 100, feeding `1..100` and then
a 101st value evicts the oldest value: the buffer is exactly `2..101`, and
the stored `mean` / `m2` equal the from-scratch sample statistics recomputed
directly from the retained buffer — no incremental drift. -/
theorem C7_recompute_matches_from_scratch :
    hist101.count = 100
      ∧ hist101.values = window_shifted
      ∧ hist101.mean = fromScratchMean hist101.values
      ∧ hist101.m2 = fromScratchSumSqDev hist101.values := by
  have hsplit : hist101
      = (window_input.foldl SensorHistory.add_value (SensorHistory.new 100)).add_value 101 := by
    unfold hist101
    rw [List.foldl_append, List.foldl_cons, List.foldl_nil]
  have hvals : (window_input.foldl SensorHistory.add_value (SensorHistory.new 100)).values
      = window_input := by decide
  have hms : (window_input.foldl SensorHistory.add_value (SensorHistory.new 100)).max_samples
      = 100 := by decide
  have hfull : (window_input.foldl SensorHistory.add_value (SensorHistory.new 100)).max_samples
      ≤ (window_input.foldl SensorHistory.add_value (SensorHistory.new 100)).values.length := by
    rw [hvals, hms]
    decide
  have hbuf : dequeAppend DEQUE_MAXLEN
      (window_input.foldl SensorHistory.add_value (SensorHistory.new 100)).values 101
      = window_shifted := by
    rw [hvals]
    decide
  have hne : window_shifted ≠ ([] : List ℚ) := by decide
  have hfin : hist101
      = { window_input.foldl SensorHistory.add_value (SensorHistory.new 100) with
          values := window_shifted,
          count := window_shifted.length,
          mean := window_shifted.sum / (window_shifted.length : ℚ),
          m2 := (window_shifted.map
            (fun x => (x - window_shifted.sum / (window_shifted.length : ℚ)) ^ 2)).sum } := by
    rw [hsplit, SensorHistory.add_value]
    rw [if_pos hfull, hbuf]
    rw [SensorHistory.recalculate_stats]
    dsimp only
    rw [if_neg hne]
  refine ⟨?_, ?_, ?_, ?_⟩
  · rw [hfin]
    decide
  · rw [hfin]
  · rw [hfin]
    rfl
  · rw [hfin]
    rfl

/-- Counterexample for C8 as stated: instantiating the claimed frame property
at the channel name `""` fails, because `reset_history("")` takes the
falsy branch of `if sensor_name:` and clears every channel — here the
statistics of the distinct channel `"temperature"` are present before the
call and gone after it. -/
theorem C8_reset_empty_name_counterexample :
    ("temperature" : String) ≠ ""
      ∧ alistGet twoChannelDetector.sensor_history "temperature" = some nineSampleHist
      ∧ alistGet ((twoChannelDetector.reset_history (some "")).sensor_history) "temperature"
          = none := by
  decide

/-- Claim C8 (amended): for every NON-EMPTY channel name `c`,
`reset_history(c)` removes only channel `c`'s stored statistics — every other
channel's statistics and subsequent z-score checks on it are unchanged, and
`c`'s own statistics are gone; it does not error (and leaves the detector
unchanged) when `c` was never observed; and `reset_history` with no channel
argument removes the statistics of all channels.  (The empty string, being
falsy in Python, behaves like the no-argument call and clears everything.) -/
theorem C8_reset_history_frame (d : AnomalyDetector) (c c' : String) (v : ℚ)
    (hne : c ≠ "") (hcc : c' ≠ c) :
    alistGet ((d.reset_history (some c)).sensor_history) c' = alistGet d.sensor_history c'
      ∧ ((d.reset_history (some c)).check_zscore c' v).1 = (d.check_zscore c' v).1
      ∧ ((d.sensor_history.map Prod.fst).Nodup →
          alistGet ((d.reset_history (some c)).sensor_history) c = none)
      ∧ (alistGet d.sensor_history c = none → d.reset_history (some c) = d)
      ∧ (d.reset_history none).sensor_history = [] := by
  have hres : d.reset_history (some c)
      = { d with sensor_history := alistDel d.sensor_history c } := by
    simp [AnomalyDetector.reset_history, hne]
  refine ⟨?_, ?_, ?_, ?_, rfl⟩
  · rw [hres]
    exact alistGet_del_ne _ _ _ hcc
  · apply check_zscore_fst_congr
    · rw [hres]
      exact ⟨rfl, rfl, rfl, rfl⟩
    · rw [hres]
      exact alistGet_del_ne _ _ _ hcc
  · intro hnd
    rw [hres]
    exact alistGet_del_self _ _ hnd
  · intro hnone
    rw [hres, alistDel_of_get_none _ _ hnone]

/-- Witness for C8 (amended) at a concrete two-channel detector: resetting
`"gas"` leaves `"temperature"` untouched, removes `"gas"`, and the
no-argument reset clears the whole map. -/
theorem C8_reset_history_frame_witness :
    alistGet ((twoChannelDetector.reset_history (some "gas")).sensor_history) "temperature"
        = some nineSampleHist
      ∧ alistGet ((twoChannelDetector.reset_history (some "gas")).sensor_history) "gas" = none
      ∧ (twoChannelDetector.reset_history none).sensor_history = [] := by
  have H := C8_reset_history_frame twoChannelDetector "gas" "temperature" 0
    (by decide) (by decide)
  exact ⟨H.1.trans (by decide), H.2.2.1 (by decide), H.2.2.2.2⟩

/-- Claim C5: for a channel whose statistics state is stored in the detector,
the z-score of a value `v` is `None` (and `check_zscore` reports
`checked=false` with reason `insufficient_history` and
`samples_collected = count`) whenever `count < 10`; when `count ≥ 10` and the
standard deviation is zero, the z-score is `0.0` for `v = mean` and `None`
otherwise; and when `count ≥ 10` with nonzero standard deviation the z-score
is `(v - mean) / std_dev`, with `check_zscore` flagging an anomaly iff its
absolute value exceeds the configured z-score threshold. -/
theorem C5_zscore_semantics (d : AnomalyDetector) (c : String) (h : SensorHistory) (v : ℚ)
    (hc : alistGet d.sensor_history c = some h) :
    (h.count < MIN_SAMPLES_FOR_ZSCORE →
        h.get_zscore v = none
          ∧ (d.check_zscore c v).1
              = ZscoreResult.unchecked "insufficient_history" MIN_SAMPLES_FOR_ZSCORE h.count)
      ∧ (MIN_SAMPLES_FOR_ZSCORE ≤ h.count → h.std_dev = 0 →
          h.get_zscore v = (if v = h.mean then some (0 : ℝ) else none))
      ∧ (MIN_SAMPLES_FOR_ZSCORE ≤ h.count → h.std_dev ≠ 0 →
          h.get_zscore v = some (((v : ℝ) - (h.mean : ℝ)) / h.std_dev)
            ∧ ((d.check_zscore c v).1.isAnomaly = true ↔
                |((v : ℝ) - (h.mean : ℝ)) / h.std_dev| > (d.z_score_threshold : ℝ))) := by
  have hgoc : d.get_or_create_history c = (h, d) := by
    simp [AnomalyDetector.get_or_create_history, hc]
  refine ⟨?_, ?_, ?_⟩
  · intro hlt
    have hgz : h.get_zscore v = none := by
      simp [SensorHistory.get_zscore, hlt]
    exact ⟨hgz, by simp [AnomalyDetector.check_zscore, hgoc, hgz]⟩
  · intro hge hsd
    simp [SensorHistory.get_zscore, Nat.not_lt.mpr hge, hsd]
  · intro hge hsd
    have hgz : h.get_zscore v = some (((v : ℝ) - (h.mean : ℝ)) / h.std_dev) := by
      simp [SensorHistory.get_zscore, Nat.not_lt.mpr hge, hsd]
    refine ⟨hgz, ?_⟩
    simp [AnomalyDetector.check_zscore, hgoc, hgz, ZscoreResult.isAnomaly]

/-- Witness for C5 at a concrete calibrated history (12 samples, mean 5,
variance 4): the z-score of 11 is `(11 - 5) / 2 = 3` and it is flagged, since
`3 > 2.5`. -/
theorem C5_zscore_semantics_witness :
    calibratedHist.get_zscore 11 = some 3
      ∧ (calibratedDetector.check_zscore "temperature" 11).1.isAnomaly = true := by
  have hvar : calibratedHist.variance = 4 := by
    norm_num [SensorHistory.variance, calibratedHist]
  have hsd : calibratedHist.std_dev = 2 := by
    rw [SensorHistory.std_dev, hvar]
    rw [show ((4 : ℚ) : ℝ) = 2 ^ 2 by norm_num, Real.sqrt_sq (by norm_num)]
  have H := (C5_zscore_semantics calibratedDetector "temperature" calibratedHist 11
      (by decide)).2.2 (by decide) (by rw [hsd]; norm_num)
  obtain ⟨h1, h2⟩ := H
  have hval : ((11 : ℚ) : ℝ) - ((calibratedHist.mean : ℚ) : ℝ) = 6 := by
    norm_num [calibratedHist]
  constructor
  · rw [h1, hsd, hval]
    norm_num
  · apply h2.mpr
    rw [hsd, hval]
    norm_num [calibratedDetector, Z_SCORE_THRESHOLD]

/-- Claim C2: with z-score mode enabled, `analyze` computes the z-score check
for a channel's value against the statistics as they were before that value
is added, and only afterwards adds the value: for a channel with exactly 9
previously analyzed values, the z-score check of the next `analyze` call is
still `checked=false` (insufficient history, `samples_collected = 9`), the
z-score result it reports is that pre-update check, and yet the channel's
`count` is 10 after the call. -/
theorem C2_zscore_before_update (d : AnomalyDetector) (c u : String) (v : ℚ)
    (h : SensorHistory) (ts sid loc : Option String)
    (hz : d.use_zscore = true)
    (hc : alistGet d.sensor_history c = some h)
    (hcount : h.count = 9) (hlen : h.values.length = 9) :
    (d.check_zscore c v).1
        = ZscoreResult.unchecked "insufficient_history" MIN_SAMPLES_FOR_ZSCORE 9
      ∧ (∀ sr, alistGet (d.analyze ⟨ts, sid, loc, [(c, ⟨some v, u⟩)]⟩).1.summary c = some sr →
          sr.zscore_result = some (d.check_zscore c v).1)
      ∧ (∃ h', alistGet (d.analyze ⟨ts, sid, loc, [(c, ⟨some v, u⟩)]⟩).2.sensor_history c
            = some h' ∧ h'.count = 10) := by
  have hgoc : d.get_or_create_history c = (h, d) := by
    simp [AnomalyDetector.get_or_create_history, hc]
  have hgz : h.get_zscore v = none := by
    simp [SensorHistory.get_zscore, hcount, MIN_SAMPLES_FOR_ZSCORE]
  have hcz : d.check_zscore c v
      = (ZscoreResult.unchecked "insufficient_history" MIN_SAMPLES_FOR_ZSCORE 9, d) := by
    simp [AnomalyDetector.check_zscore, hgoc, hgz, hcount]
  have hcnt10 : (h.add_value v).count = 10 := by
    rw [add_value_count h v (by rw [hlen]; decide)]
    split_ifs <;> omega
  have hpv : processValue d c v u
      = ({ d with sensor_history := alistSet d.sensor_history c (h.add_value v) },
         ⟨v, u,
          (if (d.check_threshold c v).isAnomaly then
             ["threshold_" ++ violationName (d.check_threshold c v).violationO]
           else []),
          d.check_threshold c v,
          some (ZscoreResult.unchecked "insufficient_history" MIN_SAMPLES_FOR_ZSCORE 9)⟩) := by
    simp [processValue, hz, hcz, hgoc, ZscoreResult.isAnomaly]
  refine ⟨by rw [hcz], ?_, ?_⟩
  · intro sr hsr
    rw [analyze_singleton] at hsr
    by_cases hre : (processValue d c v u).2.reasons = []
    · simp [hre, alistGet] at hsr
    · simp only [hre, if_false, ite_false] at hsr
      rw [alistGet_singleton] at hsr
      rw [← Option.some.inj hsr, hpv, hcz]
  · refine ⟨h.add_value v, ?_, hcnt10⟩
    rw [analyze_singleton, hpv]
    exact alistGet_set_self _ _ _

/-- Witness for C2: a detector whose temperature channel has seen exactly 9
values reports the 10th check as insufficient history while the stored count
reaches 10. -/
theorem C2_zscore_before_update_witness :
    (nineSampleDetector.check_zscore "temperature" 23).1
        = ZscoreResult.unchecked "insufficient_history" MIN_SAMPLES_FOR_ZSCORE 9
      ∧ (∃ h', alistGet (nineSampleDetector.analyze
            ⟨some "2026-01-01T00:00:00", some "HAWK-001", some "lab_east",
             [("temperature", ⟨some 23, "¬∞C"⟩)]⟩).2.sensor_history "temperature"
          = some h' ∧ h'.count = 10) := by
  have H := C2_zscore_before_update nineSampleDetector "temperature" "¬∞C" 23 nineSampleHist
    (some "2026-01-01T00:00:00") (some "HAWK-001") (some "lab_east")
    rfl (by decide) (by decide) (by decide)
  exact ⟨H.1, H.2.2⟩

/-- Claim C4: for every analyzed sample (a dict, so its channel keys are
distinct): readings whose value is missing are skipped — the channel appears
neither among the triggered sensors nor in the summary; every other channel
is triggered iff the threshold check or (when enabled) the z-score check
flags it; a triggered channel's summary entry accumulates its reasons
(`threshold_below_min` / `threshold_above_max` / `zscore_exceeded`) exactly
according to which checks flagged it; and `anomaly_detected` holds iff at
least one channel triggered. -/
theorem C4_analyze_triggering (d : AnomalyDetector) (s : Sample)
    (hnd : (s.readings.map Prod.fst).Nodup) :
    (∀ e ∈ s.readings, e.2.value = none →
        e.1 ∉ (d.analyze s).1.triggered_sensors
          ∧ e.1 ∉ ((d.analyze s).1.summary).map Prod.fst)
      ∧ (∀ e ∈ s.readings, ∀ v, e.2.value = some v →
          (e.1 ∈ (d.analyze s).1.triggered_sensors ↔
            ((d.check_threshold e.1 v).isAnomaly = true
              ∨ (d.use_zscore = true ∧ (d.check_zscore e.1 v).1.isAnomaly = true))))
      ∧ (∀ pr ∈ (d.analyze s).1.summary,
          pr.2.reasons = reasonsSpec d pr.1 pr.2.value ∧ pr.2.reasons ≠ [])
      ∧ ((d.analyze s).1.anomaly_detected = true ↔ (d.analyze s).1.triggered_sensors ≠ []) := by
  obtain ⟨htrig, hsumm⟩ := foldl_analyzeReading_spec d s.readings d [] [] hnd
    (configEq_refl d) (fun _ _ => rfl)
  rw [List.nil_append] at htrig hsumm
  rw [analyze_triggered, analyze_summary, analyze_anomaly_detected, htrig, hsumm]
  refine ⟨?_, ?_, ?_, ?_⟩
  · intro e he hv
    have hiff := mem_keys_filterMap_entryOut_iff d s.readings hnd e he
    have hout : entryOut d e = none := by simp [entryOut, hv]
    constructor
    · intro hmem
      have := hiff.mp hmem
      rw [hout] at this
      simp at this
    · intro hmem
      have := hiff.mp hmem
      rw [hout] at this
      simp at this
  · intro e he v hv
    have hiff := mem_keys_filterMap_entryOut_iff d s.readings hnd e he
    rw [hiff]
    have hout : entryOut d e
        = (if reasonsSpec d e.1 v = [] then none
           else some (e.1, sensorResultSpec d e.1 v e.2.unit)) := by
      simp [entryOut, hv]
    rw [hout, ← reasonsSpec_ne_nil_iff]
    by_cases hre : reasonsSpec d e.1 v = [] <;> simp [hre]
  · intro pr hpr
    obtain ⟨c, v, u, rfl, hre⟩ := mem_filterMap_entryOut_shape hpr
    exact ⟨rfl, hre⟩
  · simp [List.length_pos]

/-- Witness for C4 at a concrete detector and sample: the out-of-range
temperature reading of `demoSample` is triggered exactly when one of the two
checks flags it. -/
theorem C4_analyze_triggering_witness :
    ("temperature" ∈ (defaultDetector.analyze demoSample).1.triggered_sensors ↔
      ((defaultDetector.check_threshold "temperature" 40).isAnomaly = true
        ∨ (defaultDetector.use_zscore = true
            ∧ (defaultDetector.check_zscore "temperature" 40).1.isAnomaly = true))) :=
  (C4_analyze_triggering defaultDetector demoSample (by decide)).2.1
    ("temperature", ⟨some 40, "¬∞C"⟩) (by decide) 40 rfl

/-- Claim C9 (implicit): in every `analyze` result the summary contains
exactly the triggered channels — its key list is the triggered list, and a
channel has a summary entry iff it appears in `triggered_sensors`; details
computed for channels that did not trigger are absent. -/
theorem C9_summary_exactly_triggered (d : AnomalyDetector) (s : Sample) :
    ((d.analyze s).1.summary).map Prod.fst = (d.analyze s).1.triggered_sensors
      ∧ ∀ c : String,
          (∃ sr, (c, sr) ∈ (d.analyze s).1.summary) ↔
            c ∈ (d.analyze s).1.triggered_sensors := by
  have hkeys := foldl_analyzeReading_keys_eq s.readings d [] [] rfl
  rw [analyze_triggered, analyze_summary]
  refine ⟨hkeys, ?_⟩
  intro c
  rw [← hkeys]
  constructor
  · rintro ⟨sr, hsr⟩
    exact List.mem_map.mpr ⟨(c, sr), hsr, rfl⟩
  · intro hc
    obtain ⟨pr, hpr, hfst⟩ := List.mem_map.mp hc
    exact ⟨pr.2, by rw [← hfst]; exact hpr⟩

/-- Claim C10 (implicit): a detector constructed with `use_zscore=false`
performs no z-score check during `analyze` (every summary entry carries no
z-score result) and never creates or updates any channel history — the
detector state, in particular its per-channel history map, is unchanged by
every `analyze` call. -/
theorem C10_threshold_only_stateless (d : AnomalyDetector) (s : Sample)
    (hz : d.use_zscore = false) :
    (d.analyze s).2 = d
      ∧ (d.analyze s).2.sensor_history = d.sensor_history
      ∧ ∀ pr ∈ (d.analyze s).1.summary, pr.2.zscore_result = none := by
  obtain ⟨h1, h2⟩ := foldl_analyzeReading_no_zscore s.readings d [] [] hz (by simp)
  rw [analyze_snd, analyze_summary]
  exact ⟨h1, by rw [h1], h2⟩

/-- Witness for C10: a threshold-only detector is returned unchanged by a
concrete `analyze` call. -/
theorem C10_threshold_only_stateless_witness :
    (thresholdOnlyDetector.analyze demoSample).2 = thresholdOnlyDetector :=
  (C10_threshold_only_stateless thresholdOnlyDetector demoSample rfl).1

end HADS
